import Mathlib

/-!
# Garage-door controller: configuration surface and per-door timing core

Shallow embedding of `src/common.hpp` and `src/config.template.hpp`.

* `pin_t` (`uint64_t`) and `millis_t` (`unsigned long`) values are natural
  numbers; every constant of the configuration is far below `2 ^ 32`.
* `voltage_t` (`int`) values are integers.
* `std::string` values are `String`.
* `enum GarageDoor` and `enum DoorState` are inductive types whose
  constructors keep the enumerator names; `toNat` gives the enumerator value.
-/

/-! ## common.hpp -/

/-- Pin aliases of `common.hpp` lines 10-22 (`#define D0 16` ... `#define D10 1`). -/
def D0 : Nat := 16
def D1 : Nat := 5
def D2 : Nat := 4
def D3 : Nat := 0
def D4 : Nat := 2
def D5 : Nat := 14
def D6 : Nat := 12
def D7 : Nat := 13
def D8 : Nat := 15
def D9 : Nat := 3
def D10 : Nat := 1

/-- Door identity, `enum GarageDoor` of `common.hpp` lines 24-28. -/
inductive GarageDoor where
  | EAST
  | WEST
deriving DecidableEq, Repr

/-- Enumerator values of `GarageDoor`: `EAST = 0`, `WEST = 1`. -/
def GarageDoor.toNat : GarageDoor → Nat
  | .EAST => 0
  | .WEST => 1

/-- Door state, `enum DoorState` of `common.hpp` lines 30-35. -/
inductive DoorState where
  | NONE
  | DOOR_OPEN
  | DOOR_CLOSED
deriving DecidableEq, Repr

/-- Enumerator values of `DoorState`: `NONE = 0`, `DOOR_OPEN = 1`, `DOOR_CLOSED = 2`. -/
def DoorState.toNat : DoorState → Nat
  | .NONE => 0
  | .DOOR_OPEN => 1
  | .DOOR_CLOSED => 2

/-! ## Arduino.h levels used by config.template.hpp -/

/-- Modelled from the spec: the logic level `HIGH` of `Arduino.h`, which is
included by `config.template.hpp` but is not part of the sources; its value is 1. -/
def HIGH : Int := 1

/-- Modelled from the spec: the logic level `LOW` of `Arduino.h`, which is
included by `config.template.hpp` but is not part of the sources; its value is 0. -/
def LOW : Int := 0

/-! ## config.template.hpp -/

namespace Configuration

def getWifiSsid : String := "WiFiSSID"

def getWifiPassword : String := "WiFiPassword"

def getMqttHost : String := "mqtt.org"

def getMqttPort : Nat := 1883

def getMqttUser : String := "mqttUser"

def getMqttPassword : String := "mqttPassword"

def getDoorSensorPin (garageDoor : GarageDoor) : Nat :=
  match garageDoor with
  | .EAST => D1
  | .WEST => D5

def getDoorSensorVoltageOpen : Int := HIGH

def getDoorSensorVoltageClosed : Int := LOW

def getDoorSensorStatusLedPin (garageDoor : GarageDoor) : Nat :=
  match garageDoor with
  | .EAST => D0
  | .WEST => D4

def getDoorSensorStatusLedVoltageOn : Int := LOW

def getDoorSensorStatusLedVoltageOff : Int := HIGH

def getDoorOpenerPin (garageDoor : GarageDoor) : Nat :=
  match garageDoor with
  | .EAST => D2
  | .WEST => D6

def getDoorOpenerVoltageOn : Int := HIGH

def getDoorOpenerVoltageOff : Int := LOW

def getDoorOpenerTriggerMillis : Nat := 1500

def getDoorOpenerTriggerCooldownMillis : Nat := 5000

def getMqttStateTopic (garageDoor : GarageDoor) : String :=
  match garageDoor with
  | .EAST => "garage-door/east/state"
  | .WEST => "garage-door/west/state"

def getMqttStatePublishCooldownMillis : Nat := 5000

def getMqttStateRepublishMillis : Nat := 30000

def getMqttSetStateTopic (garageDoor : GarageDoor) : String :=
  match garageDoor with
  | .EAST => "garage-door/east/state/set"
  | .WEST => "garage-door/west/state/set"

def getMqttPayloadOpen : String := "open"

def getMqttPayloadClosed : String := "closed"

def getMqttPayloadOnline : String := "online"

def getMqttPayloadOffline : String := "offline"

def getMqttStatusTopic : String := "garage-door/status"

end Configuration

/-- The five timing values the specification enumerates for the timing
configuration: debounce window, opener pulse duration, opener trigger
cooldown, publish cooldown, republish interval. -/
inductive TimingParameter where
  | debounceWindow
  | pulseDuration
  | triggerCooldown
  | publishCooldown
  | republishInterval
deriving DecidableEq, Repr

/-- Resolution of a timing value against the accessors that `class Configuration`
declares (`config.template.hpp` lines 105-134). The class has the four
millisecond accessors below and no accessor for a debounce window, so that
name resolves to `none`. -/
def Configuration.timingMillis : TimingParameter → Option Nat
  | .debounceWindow => none
  | .pulseDuration => some Configuration.getDoorOpenerTriggerMillis
  | .triggerCooldown => some Configuration.getDoorOpenerTriggerCooldownMillis
  | .publishCooldown => some Configuration.getMqttStatePublishCooldownMillis
  | .republishInterval => some Configuration.getMqttStateRepublishMillis

/-! ## millis_t arithmetic -/

/-- Difference `now - since` of two `millis_t` (`unsigned long`) values of
width `bits`: C++ unsigned subtraction, which wraps modulo `2 ^ bits`. -/
def millisElapsed (bits now since : Nat) : Nat :=
  (now + (2 ^ bits - since % 2 ^ bits)) % 2 ^ bits

/-- The test `now - last >= span` against a recorded timestamp; a timestamp
that was never recorded (`none`) holds nothing back. -/
def elapsedAtLeast (bits : Nat) (last : Option Nat) (now span : Nat) : Bool :=
  match last with
  | none => true
  | some t => decide (span ≤ millisElapsed bits now t)

/-! ## OpenerActuator -/

/-- Modelled from the spec: the result of `OpenerActuator.trigger`, which is
not in the sources: `Accepted` or `Rejected(CooldownActive)`. -/
inductive TriggerResult where
  | Accepted
  | RejectedCooldownActive
deriving DecidableEq, Repr

/-- Modelled from the spec: the timing states of the opener actuator, which is
not in the sources: Idle, or Pulsing since `pulseStart`. -/
inductive ActuatorPhase where
  | Idle
  | Pulsing (pulseStart : Nat)
deriving DecidableEq, Repr

/-- A call `writePin(pin, voltage)` at the digital I/O boundary. -/
structure PinWrite where
  pin : Nat
  voltage : Int
deriving DecidableEq, Repr

/-- Modelled from the spec: the state of one door's opener actuator, which is
not in the sources: the door it drives, the start of the last accepted pulse
(`none` before the first one) and the timing state. -/
structure OpenerActuator where
  door : GarageDoor
  lastTriggerTime : Option Nat
  phase : ActuatorPhase
deriving DecidableEq, Repr

namespace OpenerActuator

/-- Modelled from the spec: the actuator of a door at start-up, which is not in
the sources: idle, no trigger recorded. -/
def init (door : GarageDoor) : OpenerActuator :=
  { door := door, lastTriggerTime := none, phase := .Idle }

/-- Modelled from the spec: `OpenerActuator.trigger(now)`, which is not in the
sources. While Pulsing the request is refused. Otherwise, if
`now - lastTriggerTime >= cooldown`, the opener pin is set to the "on" voltage,
`lastTriggerTime = now` is recorded, the pulse starts and the result is
Accepted; else there is no pin action and the result is Rejected. -/
def trigger (bits : Nat) (a : OpenerActuator) (now : Nat) :
    TriggerResult × OpenerActuator × List PinWrite :=
  match a.phase with
  | .Pulsing _ => (.RejectedCooldownActive, a, [])
  | .Idle =>
    if elapsedAtLeast bits a.lastTriggerTime now
        Configuration.getDoorOpenerTriggerCooldownMillis then
      (.Accepted,
       { a with lastTriggerTime := some now, phase := .Pulsing now },
       [{ pin := Configuration.getDoorOpenerPin a.door,
          voltage := Configuration.getDoorOpenerVoltageOn }])
    else
      (.RejectedCooldownActive, a, [])

/-- Modelled from the spec: the per-tick poll of the pulse, which is not in the
sources: Pulsing returns to Idle, and the opener pin to the "off" voltage, when
`now - pulseStart >= pulseDuration`. -/
def poll (bits : Nat) (a : OpenerActuator) (now : Nat) : OpenerActuator × List PinWrite :=
  match a.phase with
  | .Idle => (a, [])
  | .Pulsing pulseStart =>
    if Configuration.getDoorOpenerTriggerMillis ≤ millisElapsed bits now pulseStart then
      ({ a with phase := .Idle },
       [{ pin := Configuration.getDoorOpenerPin a.door,
          voltage := Configuration.getDoorOpenerVoltageOff }])
    else
      (a, [])

end OpenerActuator

/-- What reaches the actuator at a time `now`: a trigger request or a poll. -/
inductive ActuatorEvent where
  | trigger (now : Nat)
  | poll (now : Nat)
deriving DecidableEq, Repr

/-- Timestamp of an actuator event. -/
def ActuatorEvent.time : ActuatorEvent → Nat
  | .trigger now => now
  | .poll now => now

/-- What the actuator did at one event: the answer to a trigger request
(`none` for a poll) and the pin writes issued. -/
structure ActuatorStep where
  time : Nat
  result : Option TriggerResult
  writes : List PinWrite
deriving DecidableEq, Repr

namespace OpenerActuator

/-- One event applied to the actuator. -/
def step (bits : Nat) (a : OpenerActuator) (e : ActuatorEvent) :
    OpenerActuator × ActuatorStep :=
  match e with
  | .trigger now =>
    let r := trigger bits a now
    (r.2.1, { time := now, result := some r.1, writes := r.2.2 })
  | .poll now =>
    let r := poll bits a now
    (r.1, { time := now, result := none, writes := r.2 })

/-- The log of a sequence of events applied in order. -/
def run (bits : Nat) (a : OpenerActuator) : List ActuatorEvent → List ActuatorStep
  | [] => []
  | e :: es => (step bits a e).2 :: run bits (step bits a e).1 es

end OpenerActuator

/-- Timestamps of the accepted triggers of a log, in order. -/
def acceptedTimes (log : List ActuatorStep) : List Nat :=
  log.filterMap fun s => if s.result = some .Accepted then some s.time else none

/-! ## StateSyncEngine, outbound path -/

/-- Modelled from the spec: the payload mapping of the outbound path, which is
not in the sources: OPEN gives the configured "open" payload, CLOSED the
configured "closed" payload, and no payload is defined for UNKNOWN (`NONE`). -/
def statePayload : DoorState → Option String
  | .DOOR_OPEN => some Configuration.getMqttPayloadOpen
  | .DOOR_CLOSED => some Configuration.getMqttPayloadClosed
  | .NONE => none

/-- A call `publish(topic, payload)` at the pub/sub boundary. -/
structure Publish where
  topic : String
  payload : String
deriving DecidableEq, Repr

/-- Modelled from the spec: the fields of the Door entity that the outbound path
reads and writes; the entity is not in the sources. `lastPublishTime` is `none`
until the first successful publish. -/
structure Door where
  id : GarageDoor
  sensorState : DoorState
  lastPublishedState : DoorState
  lastPublishTime : Option Nat
deriving DecidableEq, Repr

namespace StateSyncEngine

/-- Modelled from the spec: the publish policy of the outbound path, which is
not in the sources: a change (`sensorState != lastPublishedState`) is published
unless `now - lastPublishTime < publishCooldown`, and independently a publish is
due when `now - lastPublishTime >= republishInterval`. -/
def publishDue (bits : Nat) (door : Door) (now : Nat) : Bool :=
  (door.sensorState != door.lastPublishedState
      && elapsedAtLeast bits door.lastPublishTime now
          Configuration.getMqttStatePublishCooldownMillis)
    || elapsedAtLeast bits door.lastPublishTime now
          Configuration.getMqttStateRepublishMillis

/-- Modelled from the spec: the outbound path of one tick, which is not in the
sources. When a publish is due and a payload is defined for the sensor state,
the payload is published on the door's state topic; `lastPublishedState` and
`lastPublishTime` are updated only when the transport reports success
(`delivered`). The second component is the publish handed to the transport. -/
def outbound (bits : Nat) (door : Door) (now : Nat) (delivered : Bool) :
    Door × Option Publish :=
  if publishDue bits door now then
    match statePayload door.sensorState with
    | none => (door, none)
    | some payload =>
      (if delivered then
         { door with lastPublishedState := door.sensorState, lastPublishTime := some now }
       else door,
       some { topic := Configuration.getMqttStateTopic door.id, payload := payload })
  else
    (door, none)

end StateSyncEngine

/-! ## Auxiliary facts -/

/-- Without wrap-around the unsigned difference is the ordinary one. -/
theorem millisElapsed_of_le {bits now since : Nat} (hle : since ≤ now)
    (hlt : now < 2 ^ bits) : millisElapsed bits now since = now - since := by
  unfold millisElapsed
  have hs : since % 2 ^ bits = since := Nat.mod_eq_of_lt (lt_of_le_of_lt hle hlt)
  rw [hs]
  have h1 : now + (2 ^ bits - since) = (now - since) + 2 ^ bits := by omega
  rw [h1, Nat.add_mod_right]
  exact Nat.mod_eq_of_lt (by omega)

/-- A poll leaves the recorded trigger time alone and answers no request. -/
theorem OpenerActuator.step_poll (bits : Nat) (a : OpenerActuator) (now : Nat) :
    (OpenerActuator.step bits a (.poll now)).1.lastTriggerTime = a.lastTriggerTime
      ∧ (OpenerActuator.step bits a (.poll now)).2.result = none
      ∧ (OpenerActuator.step bits a (.poll now)).2.time = now := by
  unfold OpenerActuator.step OpenerActuator.poll
  cases a.phase with
  | Idle => simp
  | Pulsing pulseStart =>
    by_cases h : Configuration.getDoorOpenerTriggerMillis ≤ millisElapsed bits now pulseStart
    · simp [h]
    · simp [h]

/-- A trigger request is either accepted, recording `now` after the cooldown
test passed, or rejected, leaving the actuator as it was. -/
theorem OpenerActuator.step_trigger (bits : Nat) (a : OpenerActuator) (now : Nat) :
    (OpenerActuator.step bits a (.trigger now)).2.time = now ∧
    (((OpenerActuator.step bits a (.trigger now)).2.result = some .Accepted
        ∧ (OpenerActuator.step bits a (.trigger now)).1.lastTriggerTime = some now
        ∧ ∀ last, a.lastTriggerTime = some last →
            Configuration.getDoorOpenerTriggerCooldownMillis ≤ millisElapsed bits now last)
      ∨ ((OpenerActuator.step bits a (.trigger now)).2.result = some .RejectedCooldownActive
        ∧ (OpenerActuator.step bits a (.trigger now)).1 = a)) := by
  unfold OpenerActuator.step OpenerActuator.trigger
  cases a.phase with
  | Pulsing pulseStart => simp
  | Idle =>
    by_cases h : elapsedAtLeast bits a.lastTriggerTime now
        Configuration.getDoorOpenerTriggerCooldownMillis = true
    · simp only [h, if_true, true_and]
      left
      intro last hlast
      rw [hlast] at h
      simpa [elapsedAtLeast] using h
    · simp [h]

/-- Spacing of the accepted triggers of a run from any actuator state whose
recorded trigger time is not after the events still to come. -/
theorem OpenerActuator.run_spaced (bits : Nat) :
    ∀ (evs : List ActuatorEvent) (a : OpenerActuator),
      (∀ e ∈ evs, e.time < 2 ^ bits) →
      (evs.map ActuatorEvent.time).Pairwise (fun t₁ t₂ => t₁ ≤ t₂) →
      (∀ last, a.lastTriggerTime = some last → ∀ e ∈ evs, last ≤ e.time) →
      (∀ last, a.lastTriggerTime = some last →
          ∀ t ∈ acceptedTimes (OpenerActuator.run bits a evs),
            last + Configuration.getDoorOpenerTriggerCooldownMillis ≤ t)
        ∧ (acceptedTimes (OpenerActuator.run bits a evs)).Pairwise
            (fun t₁ t₂ => t₁ + Configuration.getDoorOpenerTriggerCooldownMillis ≤ t₂) := by
  intro evs
  induction evs with
  | nil =>
    intro a _ _ _
    simp [OpenerActuator.run, acceptedTimes]
  | cons e es ih =>
    intro a hrange hmono hlast
    have hrange' : ∀ e' ∈ es, e'.time < 2 ^ bits := fun e' he' =>
      hrange e' (List.mem_cons_of_mem _ he')
    rw [List.map_cons, List.pairwise_cons] at hmono
    obtain ⟨hhead, hmono'⟩ := hmono
    have hhead' : ∀ e' ∈ es, e.time ≤ e'.time := fun e' he' =>
      hhead _ (List.mem_map_of_mem _ he')
    cases e with
    | poll now =>
      obtain ⟨hkeep, hres, _⟩ := OpenerActuator.step_poll bits a now
      have hlast' : ∀ last, (OpenerActuator.step bits a (.poll now)).1.lastTriggerTime
          = some last → ∀ e' ∈ es, last ≤ e'.time := by
        intro last h e' he'
        rw [hkeep] at h
        exact hlast last h e' (List.mem_cons_of_mem _ he')
      have hacc : acceptedTimes (OpenerActuator.run bits a (.poll now :: es))
          = acceptedTimes (OpenerActuator.run bits
              (OpenerActuator.step bits a (.poll now)).1 es) := by
        simp [OpenerActuator.run, acceptedTimes, List.filterMap_cons, hres]
      rw [hacc]
      obtain ⟨ih1, ih2⟩ := ih _ hrange' hmono' hlast'
      refine ⟨?_, ih2⟩
      intro last h
      exact ih1 last (by rw [hkeep]; exact h)
    | trigger now =>
      obtain ⟨_, hcase⟩ := OpenerActuator.step_trigger bits a now
      rcases hcase with ⟨hres, hnew, hcool⟩ | ⟨hres, hsame⟩
      · have hlast' : ∀ last, (OpenerActuator.step bits a (.trigger now)).1.lastTriggerTime
            = some last → ∀ e' ∈ es, last ≤ e'.time := by
          intro last h e' he'
          rw [hnew] at h
          cases h
          exact hhead' e' he'
        have hacc : acceptedTimes (OpenerActuator.run bits a (.trigger now :: es))
            = now :: acceptedTimes (OpenerActuator.run bits
                (OpenerActuator.step bits a (.trigger now)).1 es) := by
          have htime := (OpenerActuator.step_trigger bits a now).1
          simp [OpenerActuator.run, acceptedTimes, List.filterMap_cons, hres, htime]
        rw [hacc]
        obtain ⟨ih1, ih2⟩ := ih _ hrange' hmono' hlast'
        have hafter : ∀ t ∈ acceptedTimes (OpenerActuator.run bits
            (OpenerActuator.step bits a (.trigger now)).1 es),
            now + Configuration.getDoorOpenerTriggerCooldownMillis ≤ t := ih1 now hnew
        refine ⟨?_, List.pairwise_cons.mpr ⟨hafter, ih2⟩⟩
        intro last h t ht
        have hle : last ≤ now := hlast last h _ (List.mem_cons_self _ _)
        have hlt : now < 2 ^ bits := hrange _ (List.mem_cons_self _ _)
        have hc := hcool last h
        rw [millisElapsed_of_le hle hlt] at hc
        have hfirst : last + Configuration.getDoorOpenerTriggerCooldownMillis ≤ now := by
          omega
        rcases List.mem_cons.mp ht with rfl | ht'
        · exact hfirst
        · have := hafter t ht'
          omega
      · have hlast' : ∀ last, (OpenerActuator.step bits a (.trigger now)).1.lastTriggerTime
            = some last → ∀ e' ∈ es, last ≤ e'.time := by
          intro last h e' he'
          rw [hsame] at h
          exact hlast last h e' (List.mem_cons_of_mem _ he')
        have hacc : acceptedTimes (OpenerActuator.run bits a (.trigger now :: es))
            = acceptedTimes (OpenerActuator.run bits
                (OpenerActuator.step bits a (.trigger now)).1 es) := by
          simp [OpenerActuator.run, acceptedTimes, List.filterMap_cons, hres]
        rw [hacc]
        obtain ⟨ih1, ih2⟩ := ih _ hrange' hmono' hlast'
        refine ⟨?_, ih2⟩
        intro last h
        exact ih1 last (by rw [hsame]; exact h)

/-! ## Configuration: timing -/

/-- C1: the configured opener trigger cooldown is at least the configured
opener pulse duration. -/
theorem trigger_cooldown_ge_pulse_duration :
    Configuration.getDoorOpenerTriggerCooldownMillis
      ≥ Configuration.getDoorOpenerTriggerMillis := by
  decide

/-- C2, as stated: it is not the case that every one of the five timing values
of the specification is provided by the configuration and strictly positive;
the debounce window has no accessor. -/
theorem timing_values_not_all_provided :
    ¬ ∀ p : TimingParameter, ∃ v, Configuration.timingMillis p = some v ∧ 0 < v := by
  intro h
  obtain ⟨v, hv, _⟩ := h .debounceWindow
  simp [Configuration.timingMillis] at hv

/-- C2, amended: the configuration provides four of the five timing values, the
opener pulse duration, the opener trigger cooldown, the publish cooldown and
the republish interval, each a strictly positive number of milliseconds; it
provides no debounce window. -/
theorem timing_values_provided_positive :
    (Configuration.timingMillis .pulseDuration
        = some Configuration.getDoorOpenerTriggerMillis
      ∧ 0 < Configuration.getDoorOpenerTriggerMillis)
    ∧ (Configuration.timingMillis .triggerCooldown
        = some Configuration.getDoorOpenerTriggerCooldownMillis
      ∧ 0 < Configuration.getDoorOpenerTriggerCooldownMillis)
    ∧ (Configuration.timingMillis .publishCooldown
        = some Configuration.getMqttStatePublishCooldownMillis
      ∧ 0 < Configuration.getMqttStatePublishCooldownMillis)
    ∧ (Configuration.timingMillis .republishInterval
        = some Configuration.getMqttStateRepublishMillis
      ∧ 0 < Configuration.getMqttStateRepublishMillis)
    ∧ Configuration.timingMillis .debounceWindow = none := by
  decide

/-- C10: the configured publish cooldown does not exceed the configured
republish interval, so whenever the time since the last publish has reached the
republish interval it has also reached the publish cooldown, with the
difference taken either without wrap-around or as an unsigned difference of
any width. -/
theorem publish_cooldown_le_republish_interval (bits now lastPublishTime : Nat) :
    Configuration.getMqttStatePublishCooldownMillis
        ≤ Configuration.getMqttStateRepublishMillis
    ∧ (Configuration.getMqttStateRepublishMillis ≤ now - lastPublishTime →
        Configuration.getMqttStatePublishCooldownMillis ≤ now - lastPublishTime)
    ∧ (Configuration.getMqttStateRepublishMillis ≤ millisElapsed bits now lastPublishTime →
        Configuration.getMqttStatePublishCooldownMillis
          ≤ millisElapsed bits now lastPublishTime)
    ∧ (elapsedAtLeast bits (some lastPublishTime) now
          Configuration.getMqttStateRepublishMillis = true →
        elapsedAtLeast bits (some lastPublishTime) now
          Configuration.getMqttStatePublishCooldownMillis = true) := by
  have hle : Configuration.getMqttStatePublishCooldownMillis
      ≤ Configuration.getMqttStateRepublishMillis := by decide
  refine ⟨hle, fun h => le_trans hle h, fun h => le_trans hle h, ?_⟩
  intro h
  simp only [elapsedAtLeast, decide_eq_true_eq] at h ⊢
  exact le_trans hle h

/-- C10 at a concrete input: 35000 ms after a publish at 5000 ms the heartbeat
is due and the throttle window is over. -/
theorem publish_cooldown_le_republish_interval_witness :
    Configuration.getMqttStateRepublishMillis ≤ 40000 - 5000
    ∧ Configuration.getMqttStatePublishCooldownMillis ≤ 40000 - 5000
    ∧ Configuration.getMqttStateRepublishMillis ≤ millisElapsed 32 40000 5000
    ∧ Configuration.getMqttStatePublishCooldownMillis ≤ millisElapsed 32 40000 5000 :=
  ⟨by decide,
   (publish_cooldown_le_republish_interval 32 40000 5000).2.1 (by decide),
   by decide,
   (publish_cooldown_le_republish_interval 32 40000 5000).2.2.1 (by decide)⟩

/-! ## Configuration: topics and payloads -/

/-- C3: there are one common topic root `P` and one path segment per door
(`east`, `west`, neither containing a slash) such that every door's state topic
is `P/<door>/state`, every door's set topic is its state topic followed by
`/set`, and the status topic is `P/status`. -/
theorem mqtt_topic_layout :
    ∃ (P : String) (seg : GarageDoor → String),
      P = "garage-door" ∧ seg .EAST = "east" ∧ seg .WEST = "west"
      ∧ (∀ d, '/' ∉ (seg d).toList)
      ∧ (∀ d, Configuration.getMqttStateTopic d = P ++ "/" ++ seg d ++ "/state")
      ∧ (∀ d, Configuration.getMqttSetStateTopic d
            = Configuration.getMqttStateTopic d ++ "/set")
      ∧ Configuration.getMqttStatusTopic = P ++ "/status" := by
  refine ⟨"garage-door", fun d => match d with | .EAST => "east" | .WEST => "west",
    rfl, rfl, rfl, ?_, ?_, ?_, ?_⟩
  · intro d; cases d <;> decide
  · intro d; cases d <;> decide
  · intro d; cases d <;> decide
  · decide

/-- C4: the two state topics, the two set topics and the status topic are
pairwise different; for two different doors no state or set topic of one equals
a state or set topic of the other, and no door's state topic equals any door's
set topic. -/
theorem mqtt_topics_disjoint (d₁ d₂ : GarageDoor) (hne : d₁ ≠ d₂) :
    [Configuration.getMqttStateTopic .EAST, Configuration.getMqttStateTopic .WEST,
      Configuration.getMqttSetStateTopic .EAST, Configuration.getMqttSetStateTopic .WEST,
      Configuration.getMqttStatusTopic].Pairwise (fun a b => a ≠ b)
    ∧ Configuration.getMqttStateTopic d₁ ≠ Configuration.getMqttStateTopic d₂
    ∧ Configuration.getMqttStateTopic d₁ ≠ Configuration.getMqttSetStateTopic d₂
    ∧ Configuration.getMqttSetStateTopic d₁ ≠ Configuration.getMqttStateTopic d₂
    ∧ Configuration.getMqttSetStateTopic d₁ ≠ Configuration.getMqttSetStateTopic d₂
    ∧ (∀ a b, Configuration.getMqttStateTopic a ≠ Configuration.getMqttSetStateTopic b) := by
  refine ⟨by decide, ?_, ?_, ?_, ?_, ?_⟩
  · cases d₁ <;> cases d₂ <;> first | exact absurd rfl hne | decide
  · cases d₁ <;> cases d₂ <;> decide
  · cases d₁ <;> cases d₂ <;> decide
  · cases d₁ <;> cases d₂ <;> first | exact absurd rfl hne | decide
  · intro a b; cases a <;> cases b <;> decide

/-- C4 at the doors EAST and WEST. -/
theorem mqtt_topics_disjoint_witness :
    GarageDoor.EAST ≠ GarageDoor.WEST
    ∧ Configuration.getMqttStateTopic .EAST ≠ Configuration.getMqttStateTopic .WEST
    ∧ Configuration.getMqttSetStateTopic .EAST ≠ Configuration.getMqttSetStateTopic .WEST :=
  ⟨by decide,
   (mqtt_topics_disjoint .EAST .WEST (by decide)).2.1,
   (mqtt_topics_disjoint .EAST .WEST (by decide)).2.2.2.2.1⟩

/-- C5: the four payload accessors return `open`, `closed`, `online` and
`offline`; the four tokens are pairwise distinct, so no payload is both the
"open" and the "closed" payload, and neither presence payload is a door-state
payload. -/
theorem mqtt_payload_tokens :
    Configuration.getMqttPayloadOpen = "open"
    ∧ Configuration.getMqttPayloadClosed = "closed"
    ∧ Configuration.getMqttPayloadOnline = "online"
    ∧ Configuration.getMqttPayloadOffline = "offline"
    ∧ [Configuration.getMqttPayloadOpen, Configuration.getMqttPayloadClosed,
        Configuration.getMqttPayloadOnline, Configuration.getMqttPayloadOffline].Pairwise
          (fun a b => a ≠ b)
    ∧ (∀ payload : String,
        ¬ (payload = Configuration.getMqttPayloadOpen
            ∧ payload = Configuration.getMqttPayloadClosed))
    ∧ Configuration.getMqttPayloadOnline
        ∉ [Configuration.getMqttPayloadOpen, Configuration.getMqttPayloadClosed]
    ∧ Configuration.getMqttPayloadOffline
        ∉ [Configuration.getMqttPayloadOpen, Configuration.getMqttPayloadClosed] := by
  refine ⟨rfl, rfl, rfl, rfl, by decide, ?_, by decide, by decide⟩
  rintro payload ⟨h₁, h₂⟩
  exact absurd (h₁.symm.trans h₂) (by decide)

/-! ## Configuration: pins and voltages -/

/-- C8: the sensor, status-LED and opener pins of the two doors are the six
pins 5, 14, 16, 2, 4, 12, which are pairwise distinct. -/
theorem pin_assignments_distinct :
    [Configuration.getDoorSensorPin .EAST, Configuration.getDoorSensorPin .WEST,
      Configuration.getDoorSensorStatusLedPin .EAST,
      Configuration.getDoorSensorStatusLedPin .WEST,
      Configuration.getDoorOpenerPin .EAST, Configuration.getDoorOpenerPin .WEST]
        = [5, 14, 16, 2, 4, 12]
    ∧ [Configuration.getDoorSensorPin .EAST, Configuration.getDoorSensorPin .WEST,
        Configuration.getDoorSensorStatusLedPin .EAST,
        Configuration.getDoorSensorStatusLedPin .WEST,
        Configuration.getDoorOpenerPin .EAST, Configuration.getDoorOpenerPin .WEST].Pairwise
          (fun a b => a ≠ b) := by
  decide

/-- C9: with `HIGH = 1` and `LOW = 0`, the open and closed sensor voltages
differ, the LED on and off voltages differ, and the opener on and off voltages
differ; so no raw reading is both the open and the closed voltage. -/
theorem voltage_pairs_distinguishable :
    HIGH = 1 ∧ LOW = 0
    ∧ Configuration.getDoorSensorVoltageOpen ≠ Configuration.getDoorSensorVoltageClosed
    ∧ Configuration.getDoorSensorStatusLedVoltageOn
        ≠ Configuration.getDoorSensorStatusLedVoltageOff
    ∧ Configuration.getDoorOpenerVoltageOn ≠ Configuration.getDoorOpenerVoltageOff
    ∧ (∀ raw : Int,
        ¬ (raw = Configuration.getDoorSensorVoltageOpen
            ∧ raw = Configuration.getDoorSensorVoltageClosed)) := by
  refine ⟨rfl, rfl, by decide, by decide, by decide, ?_⟩
  rintro raw ⟨h₁, h₂⟩
  exact absurd (h₁.symm.trans h₂) (by decide)

/-! ## Outbound path: the unknown state -/

/-- C7: the payload mapping sends `DOOR_OPEN` to the configured "open" payload
and `DOOR_CLOSED` to the configured "closed" payload and defines no payload for
`NONE`; on a tick of a door whose sensor state is `NONE` the outbound path hands
no publish to the transport and leaves the door as it was; and whatever the
door, a payload that is published is the "open" or the "closed" payload. -/
theorem unknown_state_never_published (bits : Nat) (door : Door) (now : Nat)
    (delivered : Bool) (hnone : door.sensorState = .NONE) :
    statePayload .DOOR_OPEN = some Configuration.getMqttPayloadOpen
    ∧ statePayload .DOOR_CLOSED = some Configuration.getMqttPayloadClosed
    ∧ statePayload .NONE = none
    ∧ StateSyncEngine.outbound bits door now delivered = (door, none)
    ∧ (∀ (other : Door) (t : Nat) (ok : Bool),
        (StateSyncEngine.outbound bits other t ok).2.map Publish.payload
          ∈ [none, some Configuration.getMqttPayloadOpen,
              some Configuration.getMqttPayloadClosed]) := by
  refine ⟨rfl, rfl, rfl, ?_, ?_⟩
  · unfold StateSyncEngine.outbound
    rw [hnone]
    simp [statePayload]
  · intro other t ok
    unfold StateSyncEngine.outbound
    by_cases hdue : StateSyncEngine.publishDue bits other t = true
    · cases hs : other.sensorState <;> simp [hdue, hs, statePayload]
    · simp [hdue]

/-- C7 at a concrete input: a heartbeat is due for the east door, whose sensor
state is `NONE`; nothing is published. -/
theorem unknown_state_never_published_witness :
    (Door.mk .EAST .NONE .DOOR_OPEN (some 10)).sensorState = .NONE
    ∧ StateSyncEngine.publishDue 32 (Door.mk .EAST .NONE .DOOR_OPEN (some 10)) 50000 = true
    ∧ StateSyncEngine.outbound 32 (Door.mk .EAST .NONE .DOOR_OPEN (some 10)) 50000 true
        = (Door.mk .EAST .NONE .DOOR_OPEN (some 10), none) :=
  ⟨rfl, by decide,
   (unknown_state_never_published 32 (Door.mk .EAST .NONE .DOOR_OPEN (some 10)) 50000 true
      rfl).2.2.2.1⟩

/-! ## Opener actuator: cooldown -/

/-- C6: for every sequence of actuator events (trigger requests, with polls of
the pulse in between) whose timestamps are `millis_t` values in non-decreasing
order, applied to the actuator from start-up, any two accepted triggers are at
least the trigger cooldown apart. The configured cooldown is 5000 ms; of two
trigger requests 1000 ms apart the first is Accepted and sets the opener pin
to the "on" voltage, the second is Rejected(CooldownActive) with no pin write;
and an actuator whose last accepted trigger was at `t` rejects a trigger at
`t + 1000` with no pin write, whatever its timing state. -/
theorem accepted_triggers_cooldown_apart (bits : Nat) (door : GarageDoor)
    (evs : List ActuatorEvent)
    (hrange : ∀ e ∈ evs, e.time < 2 ^ bits)
    (hmono : (evs.map ActuatorEvent.time).Pairwise (fun t₁ t₂ => t₁ ≤ t₂)) :
    (acceptedTimes (OpenerActuator.run bits (OpenerActuator.init door) evs)).Pairwise
        (fun t₁ t₂ => t₁ + Configuration.getDoorOpenerTriggerCooldownMillis ≤ t₂)
    ∧ Configuration.getDoorOpenerTriggerCooldownMillis = 5000
    ∧ (∀ t : Nat,
        OpenerActuator.run bits (OpenerActuator.init door) [.trigger t, .trigger (t + 1000)]
          = [{ time := t, result := some .Accepted,
               writes := [{ pin := Configuration.getDoorOpenerPin door,
                            voltage := Configuration.getDoorOpenerVoltageOn }] },
             { time := t + 1000, result := some .RejectedCooldownActive, writes := [] }])
    ∧ (∀ (a : OpenerActuator) (t : Nat), a.lastTriggerTime = some t → t + 1000 < 2 ^ bits →
        OpenerActuator.trigger bits a (t + 1000) = (.RejectedCooldownActive, a, [])) := by
  refine ⟨?_, rfl, ?_, ?_⟩
  · exact (OpenerActuator.run_spaced bits evs (OpenerActuator.init door) hrange hmono
      (by intro last h; simp [OpenerActuator.init] at h)).2
  · intro t
    simp [OpenerActuator.run, OpenerActuator.step, OpenerActuator.trigger,
      OpenerActuator.init, elapsedAtLeast]
  · intro a t hlast hlt
    unfold OpenerActuator.trigger
    cases a.phase with
    | Pulsing pulseStart => rfl
    | Idle =>
      have hel : millisElapsed bits (t + 1000) t = 1000 := by
        rw [millisElapsed_of_le (Nat.le_add_right t 1000) hlt]
        omega
      simp [hlast, elapsedAtLeast, hel, Configuration.getDoorOpenerTriggerCooldownMillis]

/-- C6 at a concrete input: nine events on the east door between 0 ms and
10000 ms; the triggers at 0, 5000 and 10000 ms are the accepted ones. -/
theorem accepted_triggers_cooldown_apart_witness :
    (∀ e ∈ [ActuatorEvent.trigger 0, .poll 1000, .trigger 1000, .poll 1500, .trigger 4999,
        .trigger 5000, .poll 6500, .trigger 9999, .trigger 10000], e.time < 2 ^ 32)
    ∧ (([ActuatorEvent.trigger 0, .poll 1000, .trigger 1000, .poll 1500, .trigger 4999,
        .trigger 5000, .poll 6500, .trigger 9999, .trigger 10000].map
          ActuatorEvent.time).Pairwise (fun t₁ t₂ => t₁ ≤ t₂))
    ∧ acceptedTimes (OpenerActuator.run 32 (OpenerActuator.init .EAST)
        [.trigger 0, .poll 1000, .trigger 1000, .poll 1500, .trigger 4999,
         .trigger 5000, .poll 6500, .trigger 9999, .trigger 10000]) = [0, 5000, 10000]
    ∧ (acceptedTimes (OpenerActuator.run 32 (OpenerActuator.init .EAST)
        [.trigger 0, .poll 1000, .trigger 1000, .poll 1500, .trigger 4999,
         .trigger 5000, .poll 6500, .trigger 9999, .trigger 10000])).Pairwise
          (fun t₁ t₂ => t₁ + Configuration.getDoorOpenerTriggerCooldownMillis ≤ t₂) :=
  ⟨by decide, by decide, by decide,
   (accepted_triggers_cooldown_apart 32 .EAST
      [.trigger 0, .poll 1000, .trigger 1000, .poll 1500, .trigger 4999,
       .trigger 5000, .poll 6500, .trigger 9999, .trigger 10000]
      (by decide) (by decide)).1⟩
